import Mathlib

/-!
A shallow embedding of the token-acquisition core of oidc-agent: the
access-token handler (cache short-circuit, the four flow entry points and
the flow-order parser) and OIDC discovery (`openid_config.c`).

C strings (`char*`) are `Option String` (`none` = NULL); `time_t` is `Int`
and the wall clock `time(NULL)` is passed explicitly as a `now` argument.
Out-of-repository collaborators (the flow drivers `refreshFlow`,
`passwordFlow`, `codeExchange`, `lookUpDeviceCode`, the HTTP adapter
`httpsGET` and the JSON document parser) are opaque function parameters;
helpers whose definitions are not part of the repository fragment
(`strValid`, the `FLOW_VALUE_*` and `FORCE_NEW_TOKEN` constants,
`JSONArrayStringToList`, `parseOpenidConfiguration`) are modelled from the
specification and say so in their doc comments.
-/

/-- The agent error taxonomy (spec section 7, `oidc_error.h`). -/
inductive OidcError where
  | SUCCESS
  | ENOREFRSH
  | ECRED
  | EREVOKED
  | EOIDC
  | EFMT
  | EISSUER
  | ESSL
  | ECURL
  | ENOFLOW
deriving DecidableEq, Repr

/-- The issuer-metadata block cached on an account (spec section 3):
empty (all `none`) until discovery populates it. -/
structure IssuerMeta where
  configuration_endpoint : Option String := none
  authorization_endpoint : Option String := none
  token_endpoint : Option String := none
  device_authorization_endpoint : Option String := none
  registration_endpoint : Option String := none
  revocation_endpoint : Option String := none
  scopes_supported : Option String := none
  grant_types_supported : Option String := none
deriving DecidableEq, Repr

/-- The account record (spec section 3): identity, issuer metadata, cached
tokens and credentials.  Only the fields the embedded functions read or
write are carried. -/
structure Account where
  issuer_url : String := ""
  cert_path : Option String := none
  issuer : IssuerMeta := {}
  access_token : Option String := none
  token_expires_at : Int := 0
  refresh_token : Option String := none
  username : Option String := none
  password : Option String := none
deriving DecidableEq, Repr

def account_getIssuerUrl (p : Account) : String := p.issuer_url

def account_getCertPath (p : Account) : Option String := p.cert_path

def account_getIssuer (p : Account) : IssuerMeta := p.issuer

def account_getConfigEndpoint (p : Account) : Option String :=
  p.issuer.configuration_endpoint

def account_getScopesSupported (p : Account) : Option String :=
  p.issuer.scopes_supported

def account_getAccessToken (p : Account) : Option String := p.access_token

def account_getTokenExpiresAt (p : Account) : Int := p.token_expires_at

def account_getRefreshToken (p : Account) : Option String := p.refresh_token

def account_getUsername (p : Account) : Option String := p.username

def account_getPassword (p : Account) : Option String := p.password

/-- Modelled from the spec: `strValid` (utils/stringUtils, not under src/)
decides whether a C string is present and non-empty; the spec phrases every
use as "present and non-empty". -/
def strValid : Option String → Bool
  | none => false
  | some s => decide (s ≠ "")

/-- Modelled from the spec: `FORCE_NEW_TOKEN` (defines/agent_values.h, not
under src/) is the sentinel value of `min_valid_period` that disables the
cache path (spec section 3); it is a negative sentinel, distinct from every
ordinary non-negative minimum validity period. -/
def FORCE_NEW_TOKEN : Int := -1

/-- `tokenIsValidForSeconds` (access_token_handler): the cached access
token is valid for at least `min_valid_period` seconds.  The C body reads
`time(NULL)`; `now` is passed explicitly. -/
def tokenIsValidForSeconds (p : Account) (now : Int) (min_valid_period : Int) : Bool :=
  decide (account_getTokenExpiresAt p - now > 0) &&
    decide (account_getTokenExpiresAt p - now > min_valid_period)

/-- The out-of-repository refresh driver `refreshFlow(account, scope, pipes)`:
returns the issued token, the error code and the mutated account. -/
abbrev RefreshDriver := Account → Option String → Option String × OidcError × Account

/-- The out-of-repository password driver `passwordFlow(account, pipes)`. -/
abbrev PasswordDriver := Account → OidcError × Account

/-- The out-of-repository code exchange `codeExchange(account, code,
used_redirect_uri, code_verifier, pipes)`. -/
abbrev CodeDriver := Account → Option String → Option String → Option String → OidcError × Account

/-- The out-of-repository device lookup `lookUpDeviceCode(account,
device_code, pipes)`. -/
abbrev DeviceDriver := Account → Option String → OidcError × Account

/-- Modelled from the spec: `account_refreshTokenIsValid` (account module,
not under src/) checks the account holds a refresh token; the spec phrases
the skip condition as "the account has no refresh token". -/
def account_refreshTokenIsValid (p : Account) : Bool :=
  strValid (account_getRefreshToken p)

/-- `tryRefreshFlow` (access_token_handler): skip with `OIDC_ENOREFRSH`
when the account has no refresh token, else run the refresh driver.
Result: (returned token, errno, account after the call, whether the issuer
was contacted). -/
def tryRefreshFlow (refreshFlow : RefreshDriver) (p : Account) (scope : Option String) :
    Option String × OidcError × Account × Bool :=
  if account_refreshTokenIsValid p = false then
    (none, OidcError.ENOREFRSH, p, false)
  else
    match refreshFlow p scope with
    | (token, e, a) => (token, e, a, true)

/-- `tryPasswordFlow` (access_token_handler): fail with `OIDC_ECRED` when
username or password is absent or empty, else run the password driver.
Result: (errno, account after the call, whether the issuer was
contacted). -/
def tryPasswordFlow (passwordFlow : PasswordDriver) (p : Account) :
    OidcError × Account × Bool :=
  if strValid (account_getUsername p) = false ∨ strValid (account_getPassword p) = false then
    (OidcError.ECRED, p, false)
  else
    match passwordFlow p with
    | (e, a) => (e, a, true)

/-- The result of `getAccessTokenUsingRefreshFlow`: either the cache
short-circuit returned the account's cached access token, or the call fell
through to `tryRefreshFlow` (whose token, errno, account and
network-contact flag are recorded). -/
inductive ATResult where
  | cached (token : Option String)
  | fromFlow (token : Option String) (errno : OidcError) (account : Account) (network : Bool)
deriving DecidableEq, Repr

/-- `getAccessTokenUsingRefreshFlow` (access_token_handler): return the
cached access token when no scope override is given, `min_valid_period`
is not the force sentinel, the cached token is non-empty and still valid
long enough; otherwise try the refresh flow. -/
def getAccessTokenUsingRefreshFlow (refreshFlow : RefreshDriver) (account : Account)
    (now : Int) (min_valid_period : Int) (scope : Option String) : ATResult :=
  if scope = none ∧ min_valid_period ≠ FORCE_NEW_TOKEN ∧
      strValid (account_getAccessToken account) = true ∧
      tokenIsValidForSeconds account now min_valid_period = true then
    ATResult.cached (account_getAccessToken account)
  else
    match tryRefreshFlow refreshFlow account scope with
    | (token, e, a, n) => ATResult.fromFlow token e a n

/-- `getAccessTokenUsingPasswordFlow` (access_token_handler): short-circuit
with `OIDC_SUCCESS` whenever a cached access token string is present,
regardless of its expiry; else run `tryPasswordFlow`. -/
def getAccessTokenUsingPasswordFlow (passwordFlow : PasswordDriver) (account : Account) :
    OidcError × Account × Bool :=
  if strValid (account_getAccessToken account) = true then
    (OidcError.SUCCESS, account, false)
  else
    tryPasswordFlow passwordFlow account

/-- `getAccessTokenUsingAuthCodeFlow` (access_token_handler): same cached
short-circuit, else run the code exchange. -/
def getAccessTokenUsingAuthCodeFlow (codeExchange : CodeDriver) (account : Account)
    (code used_redirect_uri code_verifier : Option String) :
    OidcError × Account × Bool :=
  if strValid (account_getAccessToken account) = true then
    (OidcError.SUCCESS, account, false)
  else
    match codeExchange account code used_redirect_uri code_verifier with
    | (e, a) => (e, a, true)

/-- `getAccessTokenUsingDeviceFlow` (access_token_handler): same cached
short-circuit, else look up the device code. -/
def getAccessTokenUsingDeviceFlow (lookUpDeviceCode : DeviceDriver) (account : Account)
    (device_code : Option String) :
    OidcError × Account × Bool :=
  if strValid (account_getAccessToken account) = true then
    (OidcError.SUCCESS, account, false)
  else
    match lookUpDeviceCode account device_code with
    | (e, a) => (e, a, true)

/-- Modelled from the spec: the flow-name constants (defines, not under
src/); the default order is exactly `[refresh, password, code, device]`. -/
def FLOW_VALUE_REFRESH : String := "refresh"

/-- Modelled from the spec: see `FLOW_VALUE_REFRESH`. -/
def FLOW_VALUE_PASSWORD : String := "password"

/-- Modelled from the spec: see `FLOW_VALUE_REFRESH`. -/
def FLOW_VALUE_CODE : String := "code"

/-- Modelled from the spec: see `FLOW_VALUE_REFRESH`. -/
def FLOW_VALUE_DEVICE : String := "device"

/-- Strip one layer of surrounding double quotes from a JSON array member. -/
def stripQuotes (t : String) : String :=
  if t.startsWith "\"" && t.endsWith "\"" && decide (t.length ≥ 2) then
    (t.drop 1).dropRight 1
  else t

/-- The member names of a bracketed JSON array literal. -/
def jsonArrayNames (s : String) : List String :=
  if ((s.drop 1).dropRight 1).trim = "" then []
  else (((s.drop 1).dropRight 1).splitOn ",").map (fun t => stripQuotes t.trim)

/-- Modelled from the spec: `JSONArrayStringToList` (utils/json, not under
src/) turns a bracketed JSON array of flow names into the list of its
member strings; per spec section 9 the flow parser deduplicates at parse
time. -/
def JSONArrayStringToList (s : String) : List String :=
  (jsonArrayNames s).dedup

/-- `parseFlow` (access_token_handler): NULL gives the default order; an
input whose first character (`flow[0]` in the C) is not a bracket gives
the one-element list of a copy of that name; a bracketed input is handed
to `JSONArrayStringToList`. -/
def parseFlow (flow : Option String) : List String :=
  match flow with
  | none =>
      [FLOW_VALUE_REFRESH, FLOW_VALUE_PASSWORD, FLOW_VALUE_CODE, FLOW_VALUE_DEVICE]
  | some s =>
      if s.front ≠ '[' then [s]
      else JSONArrayStringToList s

/-- Modelled from the spec: `CONF_ENDPOINT_SUFFIX` (defines/settings.h, not
under src/); discovery "concatenates the issuer URL with
`/.well-known/openid-configuration`" (spec section 4.2). -/
def CONF_ENDPOINT_SUFFIX : String := "/.well-known/openid-configuration"

/-- The fields of a parsed `.well-known/openid-configuration` document the
discovery layer records (spec section 4.2). -/
structure OpenidDoc where
  issuer : Option String := none
  authorization_endpoint : Option String := none
  token_endpoint : Option String := none
  device_authorization_endpoint : Option String := none
  registration_endpoint : Option String := none
  revocation_endpoint : Option String := none
  scopes_supported : Option String := none
  grant_types_supported : Option String := none
deriving DecidableEq, Repr

/-- The out-of-repository HTTP adapter `httpsGET(url, headers, cert_path)`:
body on success, a transport error code on failure (NULL with
`oidc_errno` set, in the C). -/
abbrev HttpGet := String → Option String → Except OidcError String

/-- The out-of-repository JSON decoding underlying
`parseOpenidConfiguration`: a raw body either parses to a document or
fails. -/
abbrev DocParse := String → Option OpenidDoc

/-- Modelled from the spec: trailing-slash normalisation used by the
discovery issuer comparison (spec section 4.2). -/
def normalizeIssuer (s : String) : String :=
  if s.data.getLast? = some '/' then String.mk s.data.dropLast else s

/-- The mutation the parser applies on success: overwrite the
issuer-metadata block with the document's endpoints and supported sets,
keeping the configuration endpoint already recorded on the account. -/
def issuer_populateFromDoc (doc : OpenidDoc) (auth_ep token_ep : String)
    (account : Account) : Account :=
  { account with issuer :=
    { configuration_endpoint := account.issuer.configuration_endpoint
      authorization_endpoint := some auth_ep
      token_endpoint := some token_ep
      device_authorization_endpoint := doc.device_authorization_endpoint
      registration_endpoint := doc.registration_endpoint
      revocation_endpoint := doc.revocation_endpoint
      scopes_supported := doc.scopes_supported
      grant_types_supported := doc.grant_types_supported } }

/-- Modelled from the spec: `parseOpenidConfiguration` (oidc/parse_oidp,
not under src/).  A body that does not parse, or lacks a required field
(`issuer`, `authorization_endpoint`, `token_endpoint`), fails with
`OIDC_EFMT`; an issuer that does not match the configured issuer URL (up to
a trailing slash) fails with `OIDC_EISSUER`; on failure the account is
unchanged, on success the issuer-metadata block is populated from the
document (spec sections 4.2 and 3). -/
def parseOpenidConfiguration (parseDoc : DocParse) (res : String) (account : Account) :
    OidcError × Account :=
  match parseDoc res with
  | none => (OidcError.EFMT, account)
  | some doc =>
    match doc.issuer, doc.authorization_endpoint, doc.token_endpoint with
    | some iss, some auth_ep, some token_ep =>
      if normalizeIssuer iss = normalizeIssuer (account_getIssuerUrl account) then
        (OidcError.SUCCESS, issuer_populateFromDoc doc auth_ep token_ep account)
      else (OidcError.EISSUER, account)
    | _, _, _ => (OidcError.EFMT, account)

/-- `issuer_setConfigurationEndpoint` applied to the account's issuer block
(state-passing form of the C setter). -/
def issuer_setConfigurationEndpoint (account : Account) (ep : String) : Account :=
  { account with issuer := { account.issuer with configuration_endpoint := some ep } }

/-- `getIssuerConfig` (openid_config.c): build the configuration endpoint
from the issuer URL, record it on the account, fetch the document and hand
it to the parser; a transport failure propagates `oidc_errno`. -/
def getIssuerConfig (httpsGET : HttpGet) (parseDoc : DocParse) (account : Account) :
    OidcError × Account :=
  let configuration_endpoint := account_getIssuerUrl account ++ CONF_ENDPOINT_SUFFIX
  let updated := issuer_setConfigurationEndpoint account configuration_endpoint
  match httpsGET configuration_endpoint (account_getCertPath updated) with
  | Except.error e => (e, updated)
  | Except.ok res => parseOpenidConfiguration parseDoc res updated

/-- `getScopesSupportedFor` (openid_config.c): run discovery into an
ephemeral account record; on success copy out `scopes_supported` and free
the record's content, on failure return NULL.  The Bool records whether
`secFreeAccountContent` was reached (the ephemeral record's sensitive
buffers wiped/released) before returning. -/
def getScopesSupportedFor (httpsGET : HttpGet) (parseDoc : DocParse) (issuer_url : String) :
    Option String × Bool :=
  match getIssuerConfig httpsGET parseDoc { issuer_url := issuer_url } with
  | (err, account) =>
    if err ≠ OidcError.SUCCESS then (none, false)
    else (account_getScopesSupported account, true)

/-! ### Concrete fixtures -/

/-- An account with a cached token valid until 600 and an issuer URL, but
an empty issuer-metadata block. -/
def accFresh : Account :=
  { issuer_url := "https://iss.example", access_token := some "AT1", token_expires_at := 600 }

/-- An account whose cached token "AT1" is already expired (expiry 5) and
which holds no refresh token and no credentials. -/
def accStale : Account :=
  { access_token := some "AT1", token_expires_at := 5 }

/-- An account with no credentials, no tokens. -/
def accBare : Account := {}

/-- A refresh driver stub. -/
def refreshStub : RefreshDriver := fun p _ => (some "AT2", OidcError.SUCCESS, p)

/-- A password driver stub. -/
def passwordStub : PasswordDriver := fun p => (OidcError.EOIDC, p)

/-- A code-exchange driver stub. -/
def codeStub : CodeDriver := fun p _ _ _ => (OidcError.EOIDC, p)

/-- A device-lookup driver stub. -/
def deviceStub : DeviceDriver := fun p _ => (OidcError.EOIDC, p)

/-- An HTTP adapter that always fails with a transport error. -/
def httpFail : HttpGet := fun _ _ => Except.error OidcError.ECURL

/-- A document decoder that never parses. -/
def docParseFail : DocParse := fun _ => none

/-- A discovery document for `https://iss.example`. -/
def docOk : OpenidDoc :=
  { issuer := some "https://iss.example"
    authorization_endpoint := some "https://iss.example/auth"
    token_endpoint := some "https://iss.example/token"
    scopes_supported := some "openid profile" }

/-- An HTTP adapter that always returns a fixed body. -/
def httpOk : HttpGet := fun _ _ => Except.ok "body"

/-- A document decoder that always yields `docOk`. -/
def docParseOk : DocParse := fun _ => some docOk

/-! ### Helper lemmas -/

/-- Unfolding lemma for the freshness check. -/
theorem tokenIsValidForSeconds_eq_true (p : Account) (now min_valid_period : Int) :
    tokenIsValidForSeconds p now min_valid_period = true ↔
      (account_getTokenExpiresAt p - now > 0 ∧
        account_getTokenExpiresAt p - now > min_valid_period) := by
  simp [tokenIsValidForSeconds]

/-! ### Claims -/

/-- C10: for every account, every `now` and every `min_valid_period`
(including negative values), `tokenIsValidForSeconds` reports the token
valid only if `expires_at` is strictly greater than `now`; a token with
`expires_at ≤ now` (in particular the unknown-expiry sentinel
`expires_at = 0`) is never reported valid. -/
theorem tokenIsValidForSeconds_requires_unexpired (p : Account) (now min_valid_period : Int)
    (h : tokenIsValidForSeconds p now min_valid_period = true) :
    account_getTokenExpiresAt p > now := by
  rw [tokenIsValidForSeconds_eq_true] at h
  omega

/-- Witness for C10: a token expiring at 600 is valid at time 0 even for a
negative `min_valid_period`, and indeed 600 > 0. -/
theorem tokenIsValidForSeconds_requires_unexpired_witness :
    account_getTokenExpiresAt accFresh > 0 :=
  tokenIsValidForSeconds_requires_unexpired accFresh 0 (-5) (by decide)

/-- C3: for every password driver and every account whose username or
password is absent or empty, `tryPasswordFlow` fails with `OIDC_ECRED`,
contacts no network, and leaves the account unchanged. -/
theorem tryPasswordFlow_missing_credentials (passwordFlow : PasswordDriver) (p : Account)
    (h : strValid (account_getUsername p) = false ∨
      strValid (account_getPassword p) = false) :
    tryPasswordFlow passwordFlow p = (OidcError.ECRED, p, false) := by
  unfold tryPasswordFlow
  rw [if_pos h]

/-- Witness for C3: an account with neither username nor password. -/
theorem tryPasswordFlow_missing_credentials_witness :
    tryPasswordFlow passwordStub accBare = (OidcError.ECRED, accBare, false) :=
  tryPasswordFlow_missing_credentials passwordStub accBare (Or.inl (by decide))

/-- C4: for every refresh driver, every account with no (valid) refresh
token and every scope, `tryRefreshFlow` returns NULL with the skip error
`OIDC_ENOREFRSH`, contacts no network, and leaves the account unchanged. -/
theorem tryRefreshFlow_no_refresh_token (refreshFlow : RefreshDriver) (p : Account)
    (scope : Option String) (h : account_refreshTokenIsValid p = false) :
    tryRefreshFlow refreshFlow p scope = (none, OidcError.ENOREFRSH, p, false) := by
  unfold tryRefreshFlow
  rw [if_pos h]

/-- Witness for C4: an account with no refresh token. -/
theorem tryRefreshFlow_no_refresh_token_witness :
    tryRefreshFlow refreshStub accBare none = (none, OidcError.ENOREFRSH, accBare, false) :=
  tryRefreshFlow_no_refresh_token refreshStub accBare none (by decide)

/-- C5: `parseFlow` of NULL is exactly the default order
`[refresh, password, code, device]`, and `parseFlow` of a bare name (an
input not beginning with a bracket) is the one-element list of that
name. -/
theorem parseFlow_default_and_bare (s : String) (h : s.front ≠ '[') :
    parseFlow none =
        [FLOW_VALUE_REFRESH, FLOW_VALUE_PASSWORD, FLOW_VALUE_CODE, FLOW_VALUE_DEVICE] ∧
      parseFlow (some s) = [s] := by
  refine ⟨rfl, ?_⟩
  show (if s.front ≠ '[' then [s] else JSONArrayStringToList s) = [s]
  rw [if_pos h]

/-- Witness for C5: the bare name "refresh". -/
theorem parseFlow_default_and_bare_witness :
    parseFlow none =
        [FLOW_VALUE_REFRESH, FLOW_VALUE_PASSWORD, FLOW_VALUE_CODE, FLOW_VALUE_DEVICE] ∧
      parseFlow (some "refresh") = ["refresh"] :=
  parseFlow_default_and_bare "refresh" (by decide)

/-- C6: for every input (NULL, bare name or bracketed array), the flow
list returned by `parseFlow` contains no duplicate names. -/
theorem parseFlow_nodup (flow : Option String) : (parseFlow flow).Nodup := by
  match flow with
  | none =>
      show ([FLOW_VALUE_REFRESH, FLOW_VALUE_PASSWORD,
        FLOW_VALUE_CODE, FLOW_VALUE_DEVICE]).Nodup
      decide
  | some s =>
      show (if s.front ≠ '[' then [s] else JSONArrayStringToList s).Nodup
      by_cases h : s.front = '['
      · rw [if_neg (not_not_intro h)]
        exact List.nodup_dedup (jsonArrayNames s)
      · rw [if_pos h]
        exact List.nodup_singleton s

/-- C9: for all drivers, all auxiliary arguments and every account whose
cached access token string is non-empty, the entry points
`getAccessTokenUsingPasswordFlow`, `getAccessTokenUsingAuthCodeFlow` and
`getAccessTokenUsingDeviceFlow` return `OIDC_SUCCESS` immediately — the
account is untouched and no flow is run — regardless of the token's
expiry. -/
theorem cached_token_short_circuits_flows (passwordFlow : PasswordDriver)
    (codeExchange : CodeDriver) (lookUpDeviceCode : DeviceDriver) (account : Account)
    (code used_redirect_uri code_verifier device_code : Option String)
    (h : strValid (account_getAccessToken account) = true) :
    getAccessTokenUsingPasswordFlow passwordFlow account =
        (OidcError.SUCCESS, account, false) ∧
      getAccessTokenUsingAuthCodeFlow codeExchange account code used_redirect_uri
          code_verifier = (OidcError.SUCCESS, account, false) ∧
      getAccessTokenUsingDeviceFlow lookUpDeviceCode account device_code =
        (OidcError.SUCCESS, account, false) := by
  unfold getAccessTokenUsingPasswordFlow getAccessTokenUsingAuthCodeFlow
    getAccessTokenUsingDeviceFlow
  rw [if_pos h, if_pos h, if_pos h]
  exact ⟨rfl, rfl, rfl⟩

/-- Witness for C9: an account whose cached token "AT1" expired at time 5
(`expires_at ≤ now` for any `now ≥ 5`) still short-circuits all three
entry points. -/
theorem cached_token_short_circuits_flows_witness :
    getAccessTokenUsingPasswordFlow passwordStub accStale =
        (OidcError.SUCCESS, accStale, false) ∧
      getAccessTokenUsingAuthCodeFlow codeStub accStale none none none =
        (OidcError.SUCCESS, accStale, false) ∧
      getAccessTokenUsingDeviceFlow deviceStub accStale none =
        (OidcError.SUCCESS, accStale, false) :=
  cached_token_short_circuits_flows passwordStub codeStub deviceStub accStale
    none none none none (by decide)

/-- C1 (amended): the cache short-circuit of
`getAccessTokenUsingRefreshFlow` fires, returning the cached access token,
if and only if the scope override is absent, `min_valid_period` is not
`FORCE_NEW_TOKEN`, the cached token is non-empty, the token is unexpired
(`expires_at - now > 0`) **and** `expires_at - now > min_valid_period`.
The unexpiredness conjunct is the amendment: the original claim omits it,
and for a negative `min_valid_period` an expired token satisfies
`expires_at - now > min_valid_period` yet is not returned. -/
theorem getAccessTokenUsingRefreshFlow_cached_iff (refreshFlow : RefreshDriver)
    (account : Account) (now min_valid_period : Int) (scope : Option String) :
    getAccessTokenUsingRefreshFlow refreshFlow account now min_valid_period scope =
        ATResult.cached (account_getAccessToken account) ↔
      (scope = none ∧ min_valid_period ≠ FORCE_NEW_TOKEN ∧
        strValid (account_getAccessToken account) = true ∧
        account_getTokenExpiresAt account - now > 0 ∧
        account_getTokenExpiresAt account - now > min_valid_period) := by
  unfold getAccessTokenUsingRefreshFlow
  split
  case isTrue h =>
    obtain ⟨h1, h2, h3, h4⟩ := h
    rw [tokenIsValidForSeconds_eq_true] at h4
    simp only [true_iff, iff_true]
    exact ⟨h1, h2, h3, h4.1, h4.2⟩
  case isFalse h =>
    constructor
    · intro hc
      exact absurd hc (by cases htry : tryRefreshFlow refreshFlow account scope with
        | mk token rest => cases rest with
          | mk e rest2 => cases rest2 with
            | mk a n => simp [htry])
    · intro hcond
      exact absurd
        ⟨hcond.1, hcond.2.1, hcond.2.2.1,
          (tokenIsValidForSeconds_eq_true account now min_valid_period).mpr
            ⟨hcond.2.2.2.1, hcond.2.2.2.2⟩⟩ h

/-- Counterexample for C1 as stated: with the expired token of `accStale`
(expiry 5) at `now = 10` and `min_valid_period = -7`, every condition of
the claim's right-hand side holds (`-7` is not the sentinel, the token is
non-empty, and `5 - 10 = -5 > -7`), yet the cached token is not returned:
the call falls through to the refresh flow and, the account holding no
refresh token, yields the `OIDC_ENOREFRSH` skip. -/
theorem getAccessTokenUsingRefreshFlow_cache_miss_negative_period :
    ((none : Option String) = none ∧ (-7 : Int) ≠ FORCE_NEW_TOKEN ∧
        strValid (account_getAccessToken accStale) = true ∧
        account_getTokenExpiresAt accStale - 10 > -7) ∧
      getAccessTokenUsingRefreshFlow refreshStub accStale 10 (-7) none =
        ATResult.fromFlow none OidcError.ENOREFRSH accStale false := by
  decide

/-- C2 (amended): when discovery starts from an empty issuer-metadata
block and `getIssuerConfig` returns any error (transport failure, parse
failure or issuer mismatch), every field of the block other than the
configuration endpoint remains empty, while the configuration endpoint has
been set — unconditionally, before the fetch — to the issuer URL followed
by `CONF_ENDPOINT_SUFFIX`.  The original claim ("no field of it, including
the configuration endpoint, has been set") fails on exactly that field. -/
theorem getIssuerConfig_unfold (httpsGET : HttpGet) (parseDoc : DocParse)
    (account : Account) :
    getIssuerConfig httpsGET parseDoc account =
      match httpsGET (account_getIssuerUrl account ++ CONF_ENDPOINT_SUFFIX)
          (account_getCertPath account) with
      | Except.error e =>
          (e, issuer_setConfigurationEndpoint account
            (account_getIssuerUrl account ++ CONF_ENDPOINT_SUFFIX))
      | Except.ok res =>
          parseOpenidConfiguration parseDoc res
            (issuer_setConfigurationEndpoint account
              (account_getIssuerUrl account ++ CONF_ENDPOINT_SUFFIX)) := rfl

/-- Frame lemma: on every failing outcome (`EFMT`, `EISSUER`),
`parseOpenidConfiguration` leaves the account unchanged. -/
theorem parseOpenidConfiguration_frame (parseDoc : DocParse) (res : String)
    (account : Account)
    (h : (parseOpenidConfiguration parseDoc res account).1 ≠ OidcError.SUCCESS) :
    (parseOpenidConfiguration parseDoc res account).2 = account := by
  unfold parseOpenidConfiguration at h ⊢
  rcases hdoc : parseDoc res with _ | doc
  · simp only [hdoc]
  · rcases hiss : doc.issuer with _ | iss <;>
      rcases hauth : doc.authorization_endpoint with _ | auth_ep <;>
      rcases htok : doc.token_endpoint with _ | token_ep <;>
      simp only [hdoc, hiss, hauth, htok] at h ⊢
    by_cases hm : normalizeIssuer iss = normalizeIssuer (account_getIssuerUrl account)
    · rw [if_pos hm] at h
      exact absurd rfl h
    · rw [if_neg hm]

theorem getIssuerConfig_error_leaves_rest_empty (httpsGET : HttpGet) (parseDoc : DocParse)
    (account : Account) (h0 : account_getIssuer account = ({} : IssuerMeta))
    (h1 : (getIssuerConfig httpsGET parseDoc account).1 ≠ OidcError.SUCCESS) :
    (getIssuerConfig httpsGET parseDoc account).2.issuer =
      { configuration_endpoint :=
          some (account_getIssuerUrl account ++ CONF_ENDPOINT_SUFFIX) } := by
  unfold account_getIssuer at h0
  rw [getIssuerConfig_unfold] at h1 ⊢
  rcases hres : httpsGET (account_getIssuerUrl account ++ CONF_ENDPOINT_SUFFIX)
      (account_getCertPath account) with e | res
  · simp only [hres]
    unfold issuer_setConfigurationEndpoint
    rw [h0]
  · simp only [hres] at h1 ⊢
    rw [parseOpenidConfiguration_frame parseDoc res _ h1]
    unfold issuer_setConfigurationEndpoint
    rw [h0]

/-- Witness for C2 (amended): a transport failure against
`https://iss.example` leaves everything but the configuration endpoint
empty. -/
theorem getIssuerConfig_error_leaves_rest_empty_witness :
    (getIssuerConfig httpFail docParseFail accFresh).2.issuer =
      { configuration_endpoint :=
          some (account_getIssuerUrl accFresh ++ CONF_ENDPOINT_SUFFIX) } :=
  getIssuerConfig_error_leaves_rest_empty httpFail docParseFail accFresh
    (by decide) (by decide)

/-- Counterexample for C2 as stated: `accFresh` starts with an empty
issuer-metadata block; a failing transport makes `getIssuerConfig` return
an error, yet the configuration-endpoint field of the block has been set
(it is not `none`), so the block has not "remained empty". -/
theorem getIssuerConfig_transport_error_sets_endpoint :
    (getIssuerConfig httpFail docParseFail accFresh).1 ≠ OidcError.SUCCESS ∧
      account_getIssuer accFresh = ({} : IssuerMeta) ∧
      (getIssuerConfig httpFail docParseFail accFresh).2.issuer.configuration_endpoint ≠
        none := by
  refine ⟨by decide, by decide, by decide⟩

/-- Setting the configuration endpoint does not change the issuer URL. -/
theorem account_getIssuerUrl_set (account : Account) (ep : String) :
    account_getIssuerUrl (issuer_setConfigurationEndpoint account ep) =
      account_getIssuerUrl account := rfl

/-- Setting the configuration endpoint does not change the cert path. -/
theorem account_getCertPath_set (account : Account) (ep : String) :
    account_getCertPath (issuer_setConfigurationEndpoint account ep) =
      account_getCertPath account := rfl

/-- Populating from a document does not change the issuer URL. -/
theorem account_getIssuerUrl_populate (doc : OpenidDoc) (auth_ep token_ep : String)
    (account : Account) :
    account_getIssuerUrl (issuer_populateFromDoc doc auth_ep token_ep account) =
      account_getIssuerUrl account := rfl

/-- Populating from a document does not change the cert path. -/
theorem account_getCertPath_populate (doc : OpenidDoc) (auth_ep token_ep : String)
    (account : Account) :
    account_getCertPath (issuer_populateFromDoc doc auth_ep token_ep account) =
      account_getCertPath account := rfl

/-- Setting the same configuration endpoint twice equals setting it once. -/
theorem issuer_set_set (account : Account) (ep : String) :
    issuer_setConfigurationEndpoint (issuer_setConfigurationEndpoint account ep) ep =
      issuer_setConfigurationEndpoint account ep := rfl

/-- Re-recording the configuration endpoint on an account populated after
that same endpoint was recorded is the identity. -/
theorem issuer_set_populate_set (doc : OpenidDoc) (auth_ep token_ep : String)
    (account : Account) (ep : String) :
    issuer_setConfigurationEndpoint
        (issuer_populateFromDoc doc auth_ep token_ep
          (issuer_setConfigurationEndpoint account ep)) ep =
      issuer_populateFromDoc doc auth_ep token_ep
        (issuer_setConfigurationEndpoint account ep) := rfl

/-- Populating the same document twice equals populating it once. -/
theorem issuer_populate_populate (doc : OpenidDoc) (auth_ep token_ep : String)
    (account : Account) :
    issuer_populateFromDoc doc auth_ep token_ep
        (issuer_populateFromDoc doc auth_ep token_ep account) =
      issuer_populateFromDoc doc auth_ep token_ep account := rfl

/-- A second discovery run after a parse failure reproduces the failure
and the account verbatim. -/
theorem getIssuerConfig_second_run_err (httpsGET : HttpGet) (parseDoc : DocParse)
    (account : Account) (res : String) (err : OidcError)
    (hres : httpsGET (account_getIssuerUrl account ++ CONF_ENDPOINT_SUFFIX)
      (account_getCertPath account) = Except.ok res)
    (h2 : parseOpenidConfiguration parseDoc res
        (issuer_setConfigurationEndpoint account
          (account_getIssuerUrl account ++ CONF_ENDPOINT_SUFFIX)) =
      (err, issuer_setConfigurationEndpoint account
        (account_getIssuerUrl account ++ CONF_ENDPOINT_SUFFIX))) :
    getIssuerConfig httpsGET parseDoc
        (issuer_setConfigurationEndpoint account
          (account_getIssuerUrl account ++ CONF_ENDPOINT_SUFFIX)) =
      (err, issuer_setConfigurationEndpoint account
        (account_getIssuerUrl account ++ CONF_ENDPOINT_SUFFIX)) := by
  rw [getIssuerConfig_unfold]
  simp only [account_getIssuerUrl_set, account_getCertPath_set, hres, issuer_set_set]
  exact h2

/-- C7: discovery is idempotent — running `getIssuerConfig` a second time
on the account produced by the first run yields the same error code and
the same account (hence the same issuer metadata) as the first run, for
every (deterministic) HTTP adapter and document decoder. -/
theorem getIssuerConfig_idempotent (httpsGET : HttpGet) (parseDoc : DocParse)
    (account : Account) :
    getIssuerConfig httpsGET parseDoc ((getIssuerConfig httpsGET parseDoc account).2) =
      getIssuerConfig httpsGET parseDoc account := by
  rcases hres : httpsGET (account_getIssuerUrl account ++ CONF_ENDPOINT_SUFFIX)
      (account_getCertPath account) with e | res
  · have h1 : getIssuerConfig httpsGET parseDoc account =
        (e, issuer_setConfigurationEndpoint account
          (account_getIssuerUrl account ++ CONF_ENDPOINT_SUFFIX)) := by
      rw [getIssuerConfig_unfold, hres]
    rw [h1, getIssuerConfig_unfold]
    simp only [account_getIssuerUrl_set, account_getCertPath_set, hres, issuer_set_set]
  · have h1 : getIssuerConfig httpsGET parseDoc account =
        parseOpenidConfiguration parseDoc res
          (issuer_setConfigurationEndpoint account
            (account_getIssuerUrl account ++ CONF_ENDPOINT_SUFFIX)) := by
      rw [getIssuerConfig_unfold, hres]
    rcases hdoc : parseDoc res with _ | doc
    · have h2 : parseOpenidConfiguration parseDoc res
          (issuer_setConfigurationEndpoint account
            (account_getIssuerUrl account ++ CONF_ENDPOINT_SUFFIX)) =
          (OidcError.EFMT, issuer_setConfigurationEndpoint account
            (account_getIssuerUrl account ++ CONF_ENDPOINT_SUFFIX)) := by
        unfold parseOpenidConfiguration
        simp only [hdoc]
      rw [h1, h2]
      exact getIssuerConfig_second_run_err httpsGET parseDoc account res
        OidcError.EFMT hres h2
    · rcases hiss : doc.issuer with _ | iss
      · have h2 : parseOpenidConfiguration parseDoc res
            (issuer_setConfigurationEndpoint account
              (account_getIssuerUrl account ++ CONF_ENDPOINT_SUFFIX)) =
            (OidcError.EFMT, issuer_setConfigurationEndpoint account
              (account_getIssuerUrl account ++ CONF_ENDPOINT_SUFFIX)) := by
          unfold parseOpenidConfiguration
          simp only [hdoc, hiss]
        rw [h1, h2]
        exact getIssuerConfig_second_run_err httpsGET parseDoc account res
          OidcError.EFMT hres h2
      · rcases hauth : doc.authorization_endpoint with _ | auth_ep
        · have h2 : parseOpenidConfiguration parseDoc res
              (issuer_setConfigurationEndpoint account
                (account_getIssuerUrl account ++ CONF_ENDPOINT_SUFFIX)) =
              (OidcError.EFMT, issuer_setConfigurationEndpoint account
                (account_getIssuerUrl account ++ CONF_ENDPOINT_SUFFIX)) := by
            unfold parseOpenidConfiguration
            simp only [hdoc, hiss, hauth]
          rw [h1, h2]
          exact getIssuerConfig_second_run_err httpsGET parseDoc account res
            OidcError.EFMT hres h2
        · rcases htok : doc.token_endpoint with _ | token_ep
          · have h2 : parseOpenidConfiguration parseDoc res
                (issuer_setConfigurationEndpoint account
                  (account_getIssuerUrl account ++ CONF_ENDPOINT_SUFFIX)) =
                (OidcError.EFMT, issuer_setConfigurationEndpoint account
                  (account_getIssuerUrl account ++ CONF_ENDPOINT_SUFFIX)) := by
              unfold parseOpenidConfiguration
              simp only [hdoc, hiss, hauth, htok]
            rw [h1, h2]
            exact getIssuerConfig_second_run_err httpsGET parseDoc account res
              OidcError.EFMT hres h2
          · by_cases hm : normalizeIssuer iss = normalizeIssuer (account_getIssuerUrl account)
            · have h2 : parseOpenidConfiguration parseDoc res
                  (issuer_setConfigurationEndpoint account
                    (account_getIssuerUrl account ++ CONF_ENDPOINT_SUFFIX)) =
                  (OidcError.SUCCESS, issuer_populateFromDoc doc auth_ep token_ep
                    (issuer_setConfigurationEndpoint account
                      (account_getIssuerUrl account ++ CONF_ENDPOINT_SUFFIX))) := by
                unfold parseOpenidConfiguration
                simp only [hdoc, hiss, hauth, htok, account_getIssuerUrl_set]
                rw [if_pos hm]
              rw [h1, h2, getIssuerConfig_unfold]
              simp only [account_getIssuerUrl_populate, account_getIssuerUrl_set,
                account_getCertPath_populate, account_getCertPath_set, hres,
                issuer_set_populate_set]
              unfold parseOpenidConfiguration
              simp only [hdoc, hiss, hauth, htok, account_getIssuerUrl_populate,
                account_getIssuerUrl_set]
              rw [if_pos hm, issuer_populate_populate]
            · have h2 : parseOpenidConfiguration parseDoc res
                  (issuer_setConfigurationEndpoint account
                    (account_getIssuerUrl account ++ CONF_ENDPOINT_SUFFIX)) =
                  (OidcError.EISSUER, issuer_setConfigurationEndpoint account
                    (account_getIssuerUrl account ++ CONF_ENDPOINT_SUFFIX)) := by
                unfold parseOpenidConfiguration
                simp only [hdoc, hiss, hauth, htok, account_getIssuerUrl_set]
                rw [if_neg hm]
              rw [h1, h2]
              exact getIssuerConfig_second_run_err httpsGET parseDoc account res
                OidcError.EISSUER hres h2

/-- C8 (code bug): on the failure path of `getScopesSupportedFor` the
ephemeral account's buffers are NOT wiped — the C returns NULL before
reaching `secFreeAccountContent` — while on the success path they are.
With a failing transport the call returns `(none, false)`: the wipe flag
is `false`, contradicting the claim that the sensitive buffers are wiped
on every return path; with a working transport and a matching document it
returns the scopes with the wipe flag `true`. -/
theorem getScopesSupportedFor_error_path_skips_wipe :
    getScopesSupportedFor httpFail docParseFail "https://iss.example" = (none, false) ∧
      getScopesSupportedFor httpOk docParseOk "https://iss.example" =
        (some "openid profile", true) := by
  refine ⟨by decide, by decide⟩
